import Mathlib

/-!
Verification of the parameter-to-filter resolution and dispatch layer of the
taburette repository: a shallow embedding of src/rearguarde/api/util.py and
src/rearguarde/api/resources.py, with theorems settling the specification's
claims about parameter normalization, the identifier guard, per-entity
dispatch, and the combined substring search.
-/

deriving instance DecidableEq for Except

namespace Rearguarde

/-- Runtime values of request parameters, as in the Python source: strings
(raw query values and regex-validated parser output), integers (positive-int
parser output and path identifiers after `int()`), Python `None` (a declared
parser argument absent from the query string), and lists of strings
(multi-valued query parameters). -/
inductive Value where
  | str : String → Value
  | int : Int → Value
  | none : Value
  | list : List String → Value
deriving DecidableEq, Repr

/-- Python truthiness, as used by `if parameter_values[key]` in
`remove_empty_parameters` and by the combined-search emptiness check: a
string is truthy iff non-empty, an integer iff non-zero, `None` is falsy, a
list is truthy iff non-empty. -/
def truthy : Value → Bool
  | .str s => s != ""
  | .int n => n != 0
  | .none => false
  | .list l => !l.isEmpty

/-- Python `str()` rendering of a value, as used by the f-string that builds
the guard's validation messages. -/
def pyStr : Value → String
  | .str s => s
  | .int n => toString n
  | .none => "None"
  | .list l => toString l

/-- Whitespace stripped by Python's `int()` around a numeric string. -/
def isPySpace (c : Char) : Bool :=
  c == ' ' || c == '\t' || c == '\n' || c == '\r'

/-- Accumulate a decimal digit run; any non-digit character fails. -/
def parseDigitsAux : List Char → Nat → Option Nat
  | [], acc => some acc
  | c :: rest, acc =>
    if c.isDigit then parseDigitsAux rest (10 * acc + (c.toNat - 48)) else Option.none

/-- Python `int()` on the characters of a string: strip surrounding
whitespace, accept an optional single leading sign followed by at least one
decimal digit, and fail (`ValueError`) on anything else. Digit-group
underscores and non-ASCII digits, which Python also accepts, are not
modelled; no value built by this layer contains them. -/
def pyIntOfChars (l : List Char) : Option Int :=
  match (((l.dropWhile isPySpace).reverse.dropWhile isPySpace).reverse : List Char) with
  | [] => Option.none
  | '-' :: rest =>
    if rest.isEmpty then Option.none else (parseDigitsAux rest 0).map (fun n => -(n : Int))
  | '+' :: rest =>
    if rest.isEmpty then Option.none else (parseDigitsAux rest 0).map (fun n => (n : Int))
  | other => (parseDigitsAux other 0).map ((fun n => (n : Int)))

/-- Python `int()` applied to a parameter value: an int is returned
unchanged; a string is parsed as an optionally-signed decimal integer after
stripping surrounding whitespace, raising `ValueError` (modelled as
`.error`) when it does not parse; `None` and lists raise `TypeError` (also
`.error`). -/
def pyInt : Value → Except Unit Int
  | .str s =>
    match pyIntOfChars s.toList with
    | some n => .ok n
    | Option.none => .error ()
  | .int n => .ok n
  | .none => .error ()
  | .list _ => .error ()

/-- Python dicts are modelled as association lists in insertion order; the
dicts produced by the source never hold duplicate keys (Python dicts
cannot), and lemmas that need that fact take it as a `Nodup` hypothesis. -/
abbrev Dict := List (String × Value)

/-- Dictionary lookup `d[k]` / `d.get(k)`: the first entry with the given
key. -/
def dictGet : Dict → String → Option Value
  | [], _ => Option.none
  | (k0, v0) :: rest, k => if k0 == k then some v0 else dictGet rest k

/-- Python assignment `d[k] = v`: overwrite the (first) binding of the key
in place when the key exists, append a new entry otherwise. -/
def dictInsert : Dict → String → Value → Dict
  | [], k, v => [(k, v)]
  | (k0, v0) :: rest, k, v =>
    if k0 == k then (k, v) :: rest else (k0, v0) :: dictInsert rest k v

/-- Python `d.update(other)`: assign every entry of `other` into `d`, in
iteration order. -/
def dictUpdate (d other : Dict) : Dict :=
  other.foldl (fun acc p => dictInsert acc p.1 p.2) d

/-- util.consolidate_parameters: copy the raw mapping (`dict(raw)`), then
`update` it with the schema-parsed mapping — here the mapping produced by
the restx argument parsing is passed in directly — so schema-parsed values
win on key collision. A total function: the merge cannot raise. -/
def consolidate_parameters (raw parsed : Dict) : Dict :=
  dictUpdate raw parsed

/-- util.remove_empty_parameters: the dict comprehension keeping exactly the
entries whose value is truthy. -/
def remove_empty_parameters (d : Dict) : Dict :=
  d.filter (fun p => truthy p.2)

/-- Python `str.endswith(suffix)`, computed structurally on the character
lists so that concrete instances evaluate inside the kernel. -/
def pyEndsWith (s suffix : String) : Bool :=
  List.isSuffixOf suffix.toList s.toList

/-- Payload of a flask_restx `api.abort(400, message, **fields)` call:
status code, top-level message, and one named field per message entry. -/
structure AbortPayload where
  status : Nat
  message : String
  fields : List (String × String)
deriving DecidableEq, Repr

/-- Message template of the dict comprehension inside
util.abort_on_invalid_parameters, for one key of the request mapping. -/
def invalidMsg (k : String) (v : Value) : String :=
  "Invalid " ++ k ++ ": " ++ pyStr v ++ ". " ++ k ++ " must be a positive integer"

/-- Abort payload built by util.abort_on_invalid_parameters: status 400,
message 'Input payload validation failed', and one field per key of the
whole request mapping — the comprehension variable `key` shadows the loop
variable, so every key of the mapping is enumerated, not only the
identifier-suffixed ones. -/
def abortPayload (ps : Dict) : AbortPayload :=
  ⟨400, "Input payload validation failed", ps.map (fun q => (q.1, invalidMsg q.1 q.2))⟩

/-- Outcome of util.abort_on_invalid_parameters: fall through normally,
abort the request via `api.abort` (an HTTPException carrying a structured
400 payload), or escape with an unhandled exception — the
ValueError/TypeError raised by `int()` on a non-numeric value. -/
inductive GuardOutcome where
  | ok : GuardOutcome
  | abort : AbortPayload → GuardOutcome
  | exn : GuardOutcome
deriving DecidableEq, Repr

/-- Loop of util.abort_on_invalid_parameters over the remaining keys; `full`
is the whole request mapping, from which the abort payload is built. The
Python `and` short-circuits, so `int()` is only evaluated on keys that end
in '_id'. -/
def guardGo (full : Dict) : Dict → GuardOutcome
  | [] => .ok
  | (k, v) :: rest =>
    if pyEndsWith k "_id" then
      match pyInt v with
      | .error _ => .exn
      | .ok n => if n < 1 then .abort (abortPayload full) else guardGo full rest
    else
      guardGo full rest

/-- util.abort_on_invalid_parameters: for each key of the request mapping,
in order, if the key ends in '_id' then evaluate `int(value)`; a value that
does not parse raises (`.exn`), a parsed value < 1 aborts with the 400
payload, and otherwise the scan continues and finally falls through. -/
def abort_on_invalid_parameters (ps : Dict) : GuardOutcome :=
  guardGo ps ps

/-- Records returned by the retrieval backends are opaque to this layer:
only their presence and order matter. An `id` field matches the spec's
Record model; `payload` stands for the remaining serialized fields. -/
structure Record where
  id : Int
  payload : String
deriving DecidableEq, Repr

/-- Shared shape of every list route handler in resources.py (Artists,
Genres, Releases, Songs, SongsWithArtists, Sheets, TrackTabs `.get`): pass
`remove_empty_parameters(consolidate_parameters(request.args, parser))` to
the entity's retriever and return its result unmodified. `raw` is the raw
query-string mapping (the spec's RawParameters: string keys to string
values) and `parsed` the restx-parsed mapping. The second component is the
trace of filter mappings passed to the backend. -/
def listRouteGet (backend : Dict → List Record) (raw parsed : Dict) :
    List Record × List Dict :=
  (backend (remove_empty_parameters (consolidate_parameters raw parsed)),
   [remove_empty_parameters (consolidate_parameters raw parsed)])

/-- Outcome of a single-item route handler: an abort raised by the
identifier guard, an unhandled exception, the first retrieved record
(HTTP 200), or the empty object returned — also with HTTP 200 — when the
retriever finds nothing. -/
inductive ByIdOutcome where
  | abort : AbortPayload → ByIdOutcome
  | exn : ByIdOutcome
  | found : Record → ByIdOutcome
  | empty : ByIdOutcome
deriving DecidableEq, Repr

/-- Shared shape of every single-item route handler in resources.py
(ArtistById, GenreById, ReleaseById, SongById, SheetById, TrackTabById
`.get`): run abort_on_invalid_parameters on the singleton mapping binding
the route's path parameter (`idKey` is 'artist_id', 'genre_id', ... per
route; the path value `idVal` arrives as a raw string), then call the
retriever with the single-key filter binding 'id' to `int(idVal)`; return
the first record when the result list is truthy (non-empty), the empty
object otherwise. The second component is the trace of filter mappings
passed to the backend. -/
def byIdRouteGet (backend : Dict → List Record) (idKey idVal : String) :
    ByIdOutcome × List Dict :=
  match abort_on_invalid_parameters [(idKey, Value.str idVal)] with
  | .abort p => (.abort p, [])
  | .exn => (.exn, [])
  | .ok =>
    match pyInt (Value.str idVal) with
    | .error _ => (.exn, [])
    | .ok n =>
      match backend [("id", Value.int n)] with
      | [] => (.empty, [[("id", Value.int n)]])
      | r :: _ => (.found r, [[("id", Value.int n)]])

/-- Modelled from the spec: the regex `^.{1,64}$` declared for the combined
route's `substring` argument — between 1 and 64 characters, none of them a
newline since `.` does not match one. The regex evaluation itself lives in
the excluded transport framework; the spec fixes its contract as the
BoundedString pattern check of the Parameter Declaration. -/
def substringRegexOk (s : String) : Bool :=
  1 ≤ s.length && s.length ≤ 64 && s.toList.all (fun c => c != '\n')

/-- Modelled from the spec: flask_restx argument parsing for the combined
route's single declared argument `substring` (the spec's ParsedParameters
contract: the parsed mapping holds every declared key, with `None` when the
argument is absent, and a declared value failing its pattern aborts with a
schema-validation 400 before the handler body runs). Raw query values are
strings, so a present value is a `Value.str`. -/
def parseCombinedArgs (raw : Dict) : Except Unit Dict :=
  match dictGet raw "substring" with
  | some (Value.str s) =>
    if substringRegexOk s then Except.ok [("substring", Value.str s)] else Except.error ()
  | some _ => Except.error ()
  | Option.none => Except.ok [("substring", Value.none)]

/-- Outcome of CombinedArtistSongRelease.get: a schema-validation 400
raised while parsing the declared arguments, the NameError escaping from
the empty-substring branch, or the keyed response holding the three
backends' result lists unmodified. -/
inductive SearchOutcome where
  | schemaError : SearchOutcome
  | nameError : SearchOutcome
  | ok : (artists songs releases : List Record) → SearchOutcome
deriving DecidableEq, Repr

/-- Truthiness of a lookup result, as `if not morphed_args['name']` uses
it; the handler only evaluates it on a key it has just assigned, so the
`None` default never models a KeyError. -/
def truthyOpt (o : Option Value) : Bool :=
  truthy (o.getD Value.none)

/-- The morphed_args construction of CombinedArtistSongRelease.get:
consolidate the raw and parsed arguments, then
`morphed_args['name'] = morphed_args.pop('substring')` — remove the
'substring' entry and assign its value under the generic 'name' key. -/
def morphArgs (raw parsed : Dict) : Dict :=
  dictInsert
    ((consolidate_parameters raw parsed).filter (fun p => !(p.1 == "substring")))
    "name"
    ((dictGet (consolidate_parameters raw parsed) "substring").getD Value.none)

/-- CombinedArtistSongRelease.get: parse the declared arguments, build
morphed_args, and if the 'name' value is falsy take the short-circuit
branch. On that branch the source calls `logging.info(...)`, but the module
imports only `getLogger` from logging, so the name `logging` is unbound and
the call raises NameError before the `return None` line is reached; the
branch is therefore modelled as the nameError outcome with no backend call.
Otherwise assign the 'sort_by' directive and call the three retrievers with
the same mapping; the second component is the trace of (route key, filter
mapping) backend calls. -/
def combinedGet (artistB songB releaseB : Dict → List Record) (raw : Dict) :
    SearchOutcome × List (String × Dict) :=
  match parseCombinedArgs raw with
  | .error _ => (.schemaError, [])
  | .ok parsed =>
    let m := morphArgs raw parsed
    if truthyOpt (dictGet m "name") then
      let f := dictInsert m "sort_by" (Value.str "len(name)!asc")
      (.ok (artistB f) (songB f) (releaseB f),
       [("artists", f), ("songs", f), ("releases", f)])
    else
      (.nameError, [])

/-- Whenever the guard loop aborts, the payload it carries is the one built
from the whole request mapping. -/
theorem guardGo_abort_eq (full : Dict) :
    ∀ rest p, guardGo full rest = GuardOutcome.abort p → p = abortPayload full := by
  intro rest
  induction rest with
  | nil => intro p h; simp [guardGo] at h
  | cons hd tl ih =>
    intro p h
    obtain ⟨k, v⟩ := hd
    by_cases hk : pyEndsWith k "_id"
    · cases hv : pyInt v with
      | error e =>
        simp [guardGo, hk, hv] at h
      | ok n =>
        by_cases hn : n < 1
        · simp [guardGo, hk, hv, hn] at h
          exact h.symm
        · simp [guardGo, hk, hv, hn] at h
          exact ih p h
    · simp [guardGo, hk] at h
      exact ih p h

/-- Looking up the key just assigned yields the assigned value. -/
theorem dictGet_insert_self (d : Dict) (k : String) (v : Value) :
    dictGet (dictInsert d k v) k = some v := by
  induction d with
  | nil => simp [dictInsert, dictGet]
  | cons hd tl ih =>
    obtain ⟨k0, v0⟩ := hd
    by_cases h0 : k0 == k
    · simp [dictInsert, dictGet, h0]
    · simp [dictInsert, dictGet, h0, ih]

/-- Assigning one key leaves lookups of other keys unchanged. -/
theorem dictGet_insert_ne (d : Dict) (k k' : String) (v : Value) (h : k' ≠ k) :
    dictGet (dictInsert d k v) k' = dictGet d k' := by
  induction d with
  | nil =>
    simp [dictInsert, dictGet]
    intro hkk
    exact absurd hkk.symm h
  | cons hd tl ih =>
    obtain ⟨k0, v0⟩ := hd
    by_cases h0 : k0 == k
    · have hk0 : k0 = k := by simpa using h0
      subst hk0
      have hne : ¬ (k0 = k') := fun hh => h hh.symm
      simp [dictInsert, dictGet, beq_iff_eq, hne]
    · simp [dictInsert, dictGet, h0, ih]

/-- A key that occurs in no entry of the mapping looks up to nothing. -/
theorem dictGet_eq_none_of_not_mem (d : Dict) (k : String)
    (h : k ∉ d.map Prod.fst) : dictGet d k = Option.none := by
  induction d with
  | nil => simp [dictGet]
  | cons hd tl ih =>
    obtain ⟨k0, v0⟩ := hd
    simp only [List.map_cons, List.mem_cons] at h
    push_neg at h
    have h0 : (k0 == k) = false := by
      simp [beq_iff_eq]
      exact fun hh => h.1 hh.symm
    simp [dictGet, h0, ih h.2]

/-- Lookup after a `dict.update`: keys bound by the updating mapping (which,
being a Python dict, has no duplicate keys) take its value; all other keys
keep the value of the updated mapping. -/
theorem dictGet_update (d other : Dict) (k : String)
    (hnd : (other.map Prod.fst).Nodup) :
    dictGet (dictUpdate d other) k =
      match dictGet other k with
      | some v => some v
      | Option.none => dictGet d k := by
  induction other generalizing d with
  | nil => simp [dictUpdate, dictGet]
  | cons hd tl ih =>
    obtain ⟨k0, v0⟩ := hd
    simp only [List.map_cons, List.nodup_cons] at hnd
    have hstep : dictUpdate d ((k0, v0) :: tl) = dictUpdate (dictInsert d k0 v0) tl := rfl
    rw [hstep, ih (dictInsert d k0 v0) hnd.2]
    by_cases hk : k = k0
    · subst hk
      have htl : dictGet tl k = Option.none := dictGet_eq_none_of_not_mem tl k hnd.1
      simp [dictGet, htl, dictGet_insert_self]
    · have hne : (k0 == k) = false := by
        simp [beq_iff_eq]
        exact fun hh => hk hh.symm
      simp [dictGet, hne, dictGet_insert_ne d k0 k v0 hk]

/-- C9: the claim is false as stated. The guard checks `key.endswith('_id')`
and the bare key `id` does not end in '_id', so a filter mapping binding
`id` to the non-positive value "0" passes the guard without any 400. -/
theorem guard_bare_id_zero_passes :
    abort_on_invalid_parameters [("id", Value.str "0")] = GuardOutcome.ok ∧
    pyInt (Value.str "0") = Except.ok 0 ∧
    pyEndsWith "id" "_id" = false := by
  refine ⟨by decide, by decide, by decide⟩

/-- C9 (amended): the identifier guard only inspects keys ending in '_id';
the bare key `id` is not treated as identifier-suffixed, so a singleton
mapping binding `id` passes the guard unchecked whatever its value. -/
theorem guard_bare_id_unchecked (v : Value) :
    abort_on_invalid_parameters [("id", v)] = GuardOutcome.ok := by
  have h : pyEndsWith "id" "_id" = false := by decide
  simp [abort_on_invalid_parameters, guardGo, h]

/-- C2: the claim is false as stated. For the identifier-suffixed key
'artist_id' holding the non-numeric value "abc", the guard escapes with the
unhandled ValueError raised by `int('abc')` — not with a structured 400
abort. -/
theorem guard_nonnumeric_raises_not_abort :
    abort_on_invalid_parameters [("artist_id", Value.str "abc")] = GuardOutcome.exn ∧
    GuardOutcome.exn ≠
      GuardOutcome.abort (abortPayload [("artist_id", Value.str "abc")]) := by
  refine ⟨by decide, by decide⟩

/-- C2 (amended): for a singleton filter mapping whose key ends in '_id'
(the form used by every call site): a value parsing as an integer < 1 makes
the guard abort with the structured 400 payload before any backend is
invoked; a value parsing as an integer ≥ 1 passes; but a value that fails
to parse as an integer escapes as an unhandled exception, not a structured
400. In every failing case the single-item handlers issue no backend
call. -/
theorem guard_identifier_behaviour :
    (∀ k v n, pyEndsWith k "_id" = true → pyInt v = Except.ok n → n < 1 →
      abort_on_invalid_parameters [(k, v)] =
        GuardOutcome.abort (abortPayload [(k, v)])) ∧
    (∀ k v, pyEndsWith k "_id" = true → pyInt v = Except.error () →
      abort_on_invalid_parameters [(k, v)] = GuardOutcome.exn) ∧
    (∀ k v n, pyEndsWith k "_id" = true → pyInt v = Except.ok n → 1 ≤ n →
      abort_on_invalid_parameters [(k, v)] = GuardOutcome.ok) ∧
    (∀ backend idKey idVal,
      abort_on_invalid_parameters [(idKey, Value.str idVal)] ≠ GuardOutcome.ok →
      (byIdRouteGet backend idKey idVal).2 = []) := by
  refine ⟨?_, ?_, ?_, ?_⟩
  · intro k v n hk hv hn
    simp [abort_on_invalid_parameters, guardGo, hk, hv, hn]
  · intro k v hk hv
    simp [abort_on_invalid_parameters, guardGo, hk, hv]
  · intro k v n hk hv hn
    have hlt : ¬ n < 1 := by omega
    simp [abort_on_invalid_parameters, guardGo, hk, hv, hlt]
  · intro backend idKey idVal hne
    unfold byIdRouteGet
    cases hg : abort_on_invalid_parameters [(idKey, Value.str idVal)] with
    | ok => exact absurd hg hne
    | abort p => simp
    | exn => simp

/-- Witness for guard_identifier_behaviour: each conjunct applied at a
concrete input — 'artist_id' with "0" aborts, with "abc" escapes, with "5"
passes, and the failing route issues no backend call. -/
theorem guard_identifier_behaviour_witness :
    (pyEndsWith "artist_id" "_id" = true ∧ pyInt (Value.str "0") = Except.ok 0 ∧
      ((0 : Int) < 1) ∧
      abort_on_invalid_parameters [("artist_id", Value.str "0")] =
        GuardOutcome.abort (abortPayload [("artist_id", Value.str "0")])) ∧
    (pyInt (Value.str "abc") = Except.error () ∧
      abort_on_invalid_parameters [("artist_id", Value.str "abc")] = GuardOutcome.exn) ∧
    (pyInt (Value.str "5") = Except.ok 5 ∧ ((1 : Int) ≤ 5) ∧
      abort_on_invalid_parameters [("artist_id", Value.str "5")] = GuardOutcome.ok) ∧
    (abort_on_invalid_parameters [("artist_id", Value.str "abc")] ≠ GuardOutcome.ok ∧
      (byIdRouteGet (fun _ => ([] : List Record)) "artist_id" "abc").2 = []) := by
  refine ⟨⟨by decide, by decide, by decide,
      guard_identifier_behaviour.1 "artist_id" (Value.str "0") 0
        (by decide) (by decide) (by decide)⟩,
    ⟨by decide,
      guard_identifier_behaviour.2.1 "artist_id" (Value.str "abc") (by decide) (by decide)⟩,
    ⟨by decide, by decide,
      guard_identifier_behaviour.2.2.1 "artist_id" (Value.str "5") 5
        (by decide) (by decide) (by decide)⟩,
    ⟨by decide,
      guard_identifier_behaviour.2.2.2 (fun _ => ([] : List Record)) "artist_id" "abc"
        (by decide)⟩⟩

/-- C8: the claim is false as stated. When the guard aborts on the mapping
binding 'artist_id' to "0" and 'name' to "x", the payload enumerates a
message for the key 'name' as well, although 'name' is not
identifier-suffixed — the comprehension ranges over every key of the
request mapping, not only the identifier-suffixed ones. -/
theorem guard_payload_includes_non_id_key :
    abort_on_invalid_parameters [("artist_id", Value.str "0"), ("name", Value.str "x")] =
      GuardOutcome.abort
        ⟨400, "Input payload validation failed",
          [("artist_id", "Invalid artist_id: 0. artist_id must be a positive integer"),
           ("name", "Invalid name: x. name must be a positive integer")]⟩ ∧
    pyEndsWith "name" "_id" = false := by
  refine ⟨by decide, by decide⟩

/-- C8 (amended): whenever the identifier guard fails by aborting, the
structured error payload carries status 400, the message 'Input payload
validation failed', and — for every key present in the input mapping,
identifier-suffixed or not — a message of the exact form
'Invalid KEY: VALUE. KEY must be a positive integer'. -/
theorem guard_abort_payload_all_keys (ps : Dict) (p : AbortPayload)
    (h : abort_on_invalid_parameters ps = GuardOutcome.abort p) :
    p = ⟨400, "Input payload validation failed",
      ps.map (fun q =>
        (q.1, "Invalid " ++ q.1 ++ ": " ++ pyStr q.2 ++ ". " ++ q.1 ++
          " must be a positive integer"))⟩ := by
  have hp : p = abortPayload ps := guardGo_abort_eq ps ps p h
  subst hp
  simp [abortPayload, invalidMsg]

/-- Witness for guard_abort_payload_all_keys at the singleton mapping
binding 'sheet_id' to "-2". -/
theorem guard_abort_payload_all_keys_witness :
    (abort_on_invalid_parameters [("sheet_id", Value.str "-2")] =
      GuardOutcome.abort (abortPayload [("sheet_id", Value.str "-2")])) ∧
    abortPayload [("sheet_id", Value.str "-2")] =
      ⟨400, "Input payload validation failed",
        [("sheet_id", Value.str "-2")].map (fun q =>
          (q.1, "Invalid " ++ q.1 ++ ": " ++ pyStr q.2 ++ ". " ++ q.1 ++
            " must be a positive integer"))⟩ :=
  ⟨by decide,
    guard_abort_payload_all_keys [("sheet_id", Value.str "-2")]
      (abortPayload [("sheet_id", Value.str "-2")]) (by decide)⟩

/-- C6: consolidate_parameters maps every key bound by the schema-parsed
mapping (a Python dict, hence without duplicate keys) to the schema-parsed
value — even when that value is empty or None — and every key bound only by
the raw mapping to the raw value. The merge is a total function, so it
cannot raise. -/
theorem consolidate_lookup (raw parsed : Dict) (k : String)
    (hnd : (parsed.map Prod.fst).Nodup) :
    dictGet (consolidate_parameters raw parsed) k =
      match dictGet parsed k with
      | some v => some v
      | Option.none => dictGet raw k :=
  dictGet_update raw parsed k hnd

/-- Witness for consolidate_lookup: the parsed empty-string value for 'b'
wins over nothing, and is reported even though it is empty. -/
theorem consolidate_lookup_witness :
    (([("b", Value.str ""), ("c", Value.none)].map Prod.fst).Nodup) ∧
    dictGet (consolidate_parameters [("a", Value.str "x")]
        [("b", Value.str ""), ("c", Value.none)]) "b" =
      match dictGet [("b", Value.str ""), ("c", Value.none)] "b" with
      | some v => some v
      | Option.none => dictGet [("a", Value.str "x")] "b" :=
  ⟨by decide, consolidate_lookup _ _ _ (by decide)⟩

/-- C7: after remove_empty_parameters is applied to a consolidated mapping,
every entry that remains has a truthy value — no empty string, empty
collection, zero, or None survives. -/
theorem remove_empty_after_consolidate_truthy (raw parsed : Dict) :
    ∀ p ∈ remove_empty_parameters (consolidate_parameters raw parsed),
      truthy p.2 = true := by
  intro p hp
  exact (List.mem_filter.mp hp).2

/-- Witness for remove_empty_after_consolidate_truthy at a concrete raw
mapping with an empty parsed mapping. -/
theorem remove_empty_after_consolidate_truthy_witness :
    (("a", Value.str "x") ∈
      remove_empty_parameters (consolidate_parameters [("a", Value.str "x")] [])) ∧
    truthy (Value.str "x") = true :=
  ⟨by decide,
    remove_empty_after_consolidate_truthy [("a", Value.str "x")] []
      ("a", Value.str "x") (by decide)⟩

/-- C10: remove_empty_parameters is idempotent, and it is a restriction of
its input — every key it retains looks up to exactly the value it had in
the input mapping (stated for mappings without duplicate keys, the only
ones Python dicts produce). -/
theorem remove_empty_idempotent_restriction (m : Dict) :
    remove_empty_parameters (remove_empty_parameters m) = remove_empty_parameters m ∧
    (∀ k v, (m.map Prod.fst).Nodup →
      dictGet (remove_empty_parameters m) k = some v → dictGet m k = some v) := by
  constructor
  · simp [remove_empty_parameters, List.filter_filter]
  · intro k v
    induction m with
    | nil =>
      intro hnd h
      simp [remove_empty_parameters, dictGet] at h
    | cons hd tl ih =>
      intro hnd h
      obtain ⟨k0, v0⟩ := hd
      simp only [List.map_cons, List.nodup_cons] at hnd
      by_cases ht : truthy v0 = true
      · simp only [remove_empty_parameters, List.filter_cons, ht, if_true] at h
        by_cases hk : (k0 == k) = true
        · simp only [dictGet, hk, if_true] at h ⊢
          exact h
        · simp only [dictGet, hk] at h ⊢
          simp only [Bool.false_eq_true, if_false] at h ⊢
          exact ih hnd.2 h
      · simp only [remove_empty_parameters, List.filter_cons, ht,
          Bool.false_eq_true, if_false] at h
        by_cases hk : (k0 == k) = true
        · have hkk : k0 = k := by simpa using hk
          subst hkk
          have hnone :
              dictGet (List.filter (fun p => truthy p.2) tl) k0 = Option.none := by
            apply dictGet_eq_none_of_not_mem
            intro hm
            rcases List.mem_map.mp hm with ⟨p, hp, hpe⟩
            exact hnd.1 (List.mem_map.mpr ⟨p, List.mem_of_mem_filter hp, hpe⟩)
          rw [hnone] at h
          simp at h
        · simp only [dictGet, hk, Bool.false_eq_true, if_false]
          exact ih hnd.2 h

/-- Witness for remove_empty_idempotent_restriction at a mapping holding an
empty-string value under 'a' and a non-empty value under 'b'. -/
theorem remove_empty_idempotent_restriction_witness :
    (remove_empty_parameters (remove_empty_parameters
        [("a", Value.str ""), ("b", Value.str "x")]) =
      remove_empty_parameters [("a", Value.str ""), ("b", Value.str "x")]) ∧
    (([("a", Value.str ""), ("b", Value.str "x")].map Prod.fst).Nodup ∧
      dictGet (remove_empty_parameters [("a", Value.str ""), ("b", Value.str "x")]) "b" =
        some (Value.str "x")) ∧
    dictGet [("a", Value.str ""), ("b", Value.str "x")] "b" = some (Value.str "x") :=
  ⟨(remove_empty_idempotent_restriction _).1,
   ⟨by decide, by decide⟩,
   (remove_empty_idempotent_restriction _).2 "b" (Value.str "x") (by decide) (by decide)⟩

/-- C4: for a single-item lookup whose path identifier parses to a positive
integer, the handler returns the first element of the backend's result
sequence when it is non-empty, and the empty-object outcome — a successful
200 response, not a 404 or any error — when it is empty. -/
theorem byId_first_or_empty (backend : Dict → List Record) (idKey idVal : String)
    (n : Int) (hk : pyEndsWith idKey "_id" = true)
    (hp : pyInt (Value.str idVal) = Except.ok n) (hn : 1 ≤ n) :
    (byIdRouteGet backend idKey idVal).1 =
      match backend [("id", Value.int n)] with
      | [] => ByIdOutcome.empty
      | r :: _ => ByIdOutcome.found r := by
  have hlt : ¬ n < 1 := by omega
  have hguard :
      abort_on_invalid_parameters [(idKey, Value.str idVal)] = GuardOutcome.ok := by
    simp [abort_on_invalid_parameters, guardGo, hk, hp, hlt]
  simp only [byIdRouteGet, hguard, hp]
  cases backend [("id", Value.int n)] <;> simp

/-- Witness for byId_first_or_empty: the artist route at id "7", once with
an empty backend (yielding the empty object) and once with a singleton
backend (yielding its first record). -/
theorem byId_first_or_empty_witness :
    (pyEndsWith "artist_id" "_id" = true ∧
      pyInt (Value.str "7") = Except.ok 7 ∧ (1 : Int) ≤ 7) ∧
    ((byIdRouteGet (fun _ => ([] : List Record)) "artist_id" "7").1 =
      ByIdOutcome.empty) ∧
    ((byIdRouteGet (fun _ => [Record.mk 7 "r"]) "artist_id" "7").1 =
      ByIdOutcome.found (Record.mk 7 "r")) := by
  refine ⟨⟨by decide, by decide, by decide⟩, ?_, ?_⟩
  · exact byId_first_or_empty (fun _ => []) "artist_id" "7" 7
      (by decide) (by decide) (by decide)
  · exact byId_first_or_empty (fun _ => [Record.mk 7 "r"]) "artist_id" "7" 7
      (by decide) (by decide) (by decide)

/-- The 'name' key of morphed_args always holds the consolidated
'substring' value just assigned to it. -/
theorem dictGet_morphArgs_name (raw parsed : Dict) :
    dictGet (morphArgs raw parsed) "name" =
      some ((dictGet (consolidate_parameters raw parsed) "substring").getD Value.none) := by
  unfold morphArgs
  exact dictGet_insert_self _ _ _

/-- C1: the claim is false as stated. A whitespace-only substring is not
trimmed by the source: "   " is truthy in Python, so the handler does not
short-circuit and all three backends are invoked (three backend calls in
the trace), contradicting the claimed immediate none result with no backend
queried. -/
theorem combined_search_whitespace_invokes_backends :
    combinedGet (fun _ => ([] : List Record)) (fun _ => []) (fun _ => [])
        [("substring", Value.str "   ")] =
      (SearchOutcome.ok [] [] [],
       [("artists", [("name", Value.str "   "), ("sort_by", Value.str "len(name)!asc")]),
        ("songs", [("name", Value.str "   "), ("sort_by", Value.str "len(name)!asc")]),
        ("releases", [("name", Value.str "   "), ("sort_by", Value.str "len(name)!asc")])]) := by
  decide

/-- C1 (amended): when the substring parameter is absent the handler takes
the short-circuit branch before invoking any backend, but that branch
raises NameError (the module never imports `logging`, only `getLogger`)
instead of returning none; when the substring is present but empty, schema
validation rejects it with a 400 (the declared pattern requires 1–64
characters) before the handler body runs, again with no backend call; a
whitespace-only substring is not trimmed and does query all three
backends. -/
theorem combined_search_empty_or_absent_shortcircuit :
    (∀ A S R raw, dictGet raw "substring" = Option.none →
      combinedGet A S R raw = (SearchOutcome.nameError, [])) ∧
    (∀ A S R raw, dictGet raw "substring" = some (Value.str "") →
      combinedGet A S R raw = (SearchOutcome.schemaError, [])) ∧
    (∀ A S R, ((combinedGet A S R [("substring", Value.str "   ")]).2).length = 3) := by
  refine ⟨?_, ?_, ?_⟩
  · intro A S R raw h
    have hparse : parseCombinedArgs raw = Except.ok [("substring", Value.none)] := by
      simp [parseCombinedArgs, h]
    have hsub :
        dictGet (consolidate_parameters raw [("substring", Value.none)]) "substring" =
          some Value.none := by
      have hcons : consolidate_parameters raw [("substring", Value.none)] =
          dictInsert raw "substring" Value.none := rfl
      rw [hcons]
      exact dictGet_insert_self _ _ _
    have hname : dictGet (morphArgs raw [("substring", Value.none)]) "name" =
        some Value.none := by
      rw [dictGet_morphArgs_name, hsub]
      rfl
    simp [combinedGet, hparse, hname, truthyOpt, truthy]
  · intro A S R raw h
    have hre : substringRegexOk "" = false := by decide
    simp [combinedGet, parseCombinedArgs, h, hre]
  · intro A S R
    rfl

/-- Witness for combined_search_empty_or_absent_shortcircuit: the absent
case at an empty raw mapping and the empty-string case, each with stub
backends. -/
theorem combined_search_empty_or_absent_shortcircuit_witness :
    (dictGet ([] : Dict) "substring" = Option.none ∧
      combinedGet (fun _ => ([] : List Record)) (fun _ => []) (fun _ => []) [] =
        (SearchOutcome.nameError, [])) ∧
    (dictGet [("substring", Value.str "")] "substring" = some (Value.str "") ∧
      combinedGet (fun _ => ([] : List Record)) (fun _ => []) (fun _ => [])
          [("substring", Value.str "")] = (SearchOutcome.schemaError, [])) := by
  refine ⟨⟨rfl, ?_⟩, ⟨by decide, ?_⟩⟩
  · exact combined_search_empty_or_absent_shortcircuit.1 _ _ _ [] rfl
  · exact combined_search_empty_or_absent_shortcircuit.2.1 _ _ _ _ (by decide)

/-- C3: the claim is false as stated. Extra raw query parameters are not
removed: for the request carrying substring "abc" and an extra parameter
foo=bar, the filter mapping passed to each backend also binds 'foo', so it
does not consist exactly of the name and sort_by keys. -/
theorem combined_search_extra_param_in_filter :
    combinedGet (fun _ => ([] : List Record)) (fun _ => []) (fun _ => [])
        [("substring", Value.str "abc"), ("foo", Value.str "bar")] =
      (SearchOutcome.ok [] [] [],
       [("artists", [("foo", Value.str "bar"), ("name", Value.str "abc"),
          ("sort_by", Value.str "len(name)!asc")]),
        ("songs", [("foo", Value.str "bar"), ("name", Value.str "abc"),
          ("sort_by", Value.str "len(name)!asc")]),
        ("releases", [("foo", Value.str "bar"), ("name", Value.str "abc"),
          ("sort_by", Value.str "len(name)!asc")])]) ∧
    dictGet [("foo", Value.str "bar"), ("name", Value.str "abc"),
        ("sort_by", Value.str "len(name)!asc")] "foo" = some (Value.str "bar") := by
  refine ⟨by decide, by decide⟩

/-- C3 (amended): for a combined-search request whose only query parameter
is a schema-valid substring s, exactly one call is issued to each of the
artist, song and release backends, each receiving the same mapping
consisting exactly of name bound to s and sort_by bound to
"len(name)!asc", and the keyed response holds each backend's result
unmodified; any extra raw query parameters of the request would be
forwarded inside that shared mapping as well. -/
theorem combined_search_single_param_calls (A S R : Dict → List Record) (s : String)
    (hre : substringRegexOk s = true) :
    combinedGet A S R [("substring", Value.str s)] =
      (SearchOutcome.ok
        (A [("name", Value.str s), ("sort_by", Value.str "len(name)!asc")])
        (S [("name", Value.str s), ("sort_by", Value.str "len(name)!asc")])
        (R [("name", Value.str s), ("sort_by", Value.str "len(name)!asc")]),
       [("artists", [("name", Value.str s), ("sort_by", Value.str "len(name)!asc")]),
        ("songs", [("name", Value.str s), ("sort_by", Value.str "len(name)!asc")]),
        ("releases", [("name", Value.str s), ("sort_by", Value.str "len(name)!asc")])]) := by
  have hs : (s != "") = true := by
    rcases h : s == "" with _ | _
    · simp [bne, h]
    · have : s = "" := by simpa using h
      subst this
      simp [substringRegexOk] at hre
  have hparse : parseCombinedArgs [("substring", Value.str s)] =
      Except.ok [("substring", Value.str s)] := by
    simp [parseCombinedArgs, dictGet, hre]
  have hm : morphArgs [("substring", Value.str s)] [("substring", Value.str s)] =
      [("name", Value.str s)] := by
    simp [morphArgs, consolidate_parameters, dictUpdate, dictInsert, dictGet]
  have hname :
      truthyOpt (dictGet [("name", Value.str s)] "name") = true := by
    simp [dictGet, truthyOpt, truthy, hs]
  have hsub :
      dictGet (consolidate_parameters [("substring", Value.str s)]
        [("substring", Value.str s)]) "substring" = some (Value.str s) := by
    simp [consolidate_parameters, dictUpdate, dictInsert, dictGet]
  simp [combinedGet, hparse, hm, hname, hsub, dictInsert]

/-- Witness for combined_search_single_param_calls at substring "abc" with
stub backends. -/
theorem combined_search_single_param_calls_witness :
    substringRegexOk "abc" = true ∧
    combinedGet (fun _ => ([] : List Record)) (fun _ => []) (fun _ => [])
        [("substring", Value.str "abc")] =
      (SearchOutcome.ok [] [] [],
       [("artists", [("name", Value.str "abc"), ("sort_by", Value.str "len(name)!asc")]),
        ("songs", [("name", Value.str "abc"), ("sort_by", Value.str "len(name)!asc")]),
        ("releases", [("name", Value.str "abc"), ("sort_by", Value.str "len(name)!asc")])]) := by
  refine ⟨by decide, ?_⟩
  exact combined_search_single_param_calls _ _ _ "abc" (by decide)

/-- C5: the claim is false as stated. The combined-search route applies no
empty-value filtering to the consolidated mapping, so an extra raw query
parameter bound to an empty string — foo with value "" here — reaches all
three retrieval backends inside the filter mapping. -/
theorem combined_search_forwards_empty_value :
    (combinedGet (fun _ => ([] : List Record)) (fun _ => []) (fun _ => [])
        [("substring", Value.str "abc"), ("foo", Value.str "")]).2 =
      [("artists", [("foo", Value.str ""), ("name", Value.str "abc"),
         ("sort_by", Value.str "len(name)!asc")]),
       ("songs", [("foo", Value.str ""), ("name", Value.str "abc"),
         ("sort_by", Value.str "len(name)!asc")]),
       ("releases", [("foo", Value.str ""), ("name", Value.str "abc"),
         ("sort_by", Value.str "len(name)!asc")])] ∧
    (("foo", Value.str "") ∈
      [("foo", Value.str ""), ("name", Value.str "abc"),
       ("sort_by", Value.str "len(name)!asc")]) ∧
    truthy (Value.str "") = false := by
  refine ⟨by decide, by decide, by decide⟩

/-- C5 (amended): the list routes (which apply remove_empty_parameters) and
the single-item routes (whose filter is the single positive id) never pass
an empty-valued key to a backend; the combined-search route guarantees only
that its own name and sort_by entries are non-empty, while extra raw query
parameters — possibly empty-valued — are forwarded unfiltered. -/
theorem filters_nonempty_except_combined_extras :
    (∀ backend raw parsed f, f ∈ (listRouteGet backend raw parsed).2 →
      ∀ p ∈ f, truthy p.2 = true) ∧
    (∀ backend idKey idVal, pyEndsWith idKey "_id" = true →
      ∀ f ∈ (byIdRouteGet backend idKey idVal).2, ∀ p ∈ f, truthy p.2 = true) ∧
    (∀ A S R raw call, call ∈ (combinedGet A S R raw).2 →
      truthyOpt (dictGet call.2 "name") = true ∧
      dictGet call.2 "sort_by" = some (Value.str "len(name)!asc")) := by
  refine ⟨?_, ?_, ?_⟩
  · intro backend raw parsed f hf p hp
    simp only [listRouteGet, List.mem_singleton] at hf
    subst hf
    exact (List.mem_filter.mp hp).2
  · intro backend idKey idVal hk f hf p hp
    cases hg : abort_on_invalid_parameters [(idKey, Value.str idVal)] with
    | abort q =>
      have ht : (byIdRouteGet backend idKey idVal).2 = [] := by
        simp only [byIdRouteGet, hg]
      rw [ht] at hf
      simp at hf
    | exn =>
      have ht : (byIdRouteGet backend idKey idVal).2 = [] := by
        simp only [byIdRouteGet, hg]
      rw [ht] at hf
      simp at hf
    | ok =>
      cases hv : pyInt (Value.str idVal) with
      | error e =>
        have ht : (byIdRouteGet backend idKey idVal).2 = [] := by
          simp only [byIdRouteGet, hg, hv]
        rw [ht] at hf
        simp at hf
      | ok n =>
        have ht : (byIdRouteGet backend idKey idVal).2 = [[("id", Value.int n)]] := by
          simp only [byIdRouteGet, hg, hv]
          cases backend [("id", Value.int n)] <;> simp
        rw [ht] at hf
        have hf2 : f = [("id", Value.int n)] := by simpa using hf
        subst hf2
        have hn : ¬ n < 1 := by
          intro hlt
          have habort : abort_on_invalid_parameters [(idKey, Value.str idVal)] =
              GuardOutcome.abort (abortPayload [(idKey, Value.str idVal)]) := by
            simp [abort_on_invalid_parameters, guardGo, hk, hv, hlt]
          rw [hg] at habort
          exact GuardOutcome.noConfusion habort
        have hp2 : p = ("id", Value.int n) := by simpa using hp
        subst hp2
        simp only [truthy, bne_iff_ne, ne_eq, decide_eq_true_eq]
        omega
  · intro A S R raw call hcall
    unfold combinedGet at hcall
    cases hparse : parseCombinedArgs raw with
    | error e => rw [hparse] at hcall; simp at hcall
    | ok parsed =>
      rw [hparse] at hcall
      by_cases htr : truthyOpt (dictGet (morphArgs raw parsed) "name") = true
      · simp only [htr, if_true, List.mem_cons, List.not_mem_nil, or_false] at hcall
        have hne : "name" ≠ "sort_by" := by decide
        rcases hcall with h | h | h <;> subst h <;>
          exact ⟨by rw [dictGet_insert_ne _ _ _ _ hne]; exact htr,
            dictGet_insert_self _ _ _⟩
      · simp only [Bool.not_eq_true] at htr
        simp only [htr, Bool.false_eq_true, if_false, List.not_mem_nil] at hcall

/-- Witness for filters_nonempty_except_combined_extras: each conjunct
applied at a concrete request — a list route with one non-empty raw
parameter, the artist single-item route at id "7", and a combined search
for "abc". -/
theorem filters_nonempty_except_combined_extras_witness :
    ((remove_empty_parameters (consolidate_parameters [("a", Value.str "x")] []) ∈
        (listRouteGet (fun _ => ([] : List Record)) [("a", Value.str "x")] []).2 ∧
      ("a", Value.str "x") ∈
        remove_empty_parameters (consolidate_parameters [("a", Value.str "x")] [])) ∧
      truthy (Value.str "x") = true) ∧
    ((pyEndsWith "artist_id" "_id" = true ∧
      [("id", Value.int 7)] ∈
        (byIdRouteGet (fun _ => ([] : List Record)) "artist_id" "7").2 ∧
      ("id", Value.int 7) ∈ [("id", Value.int 7)]) ∧
      truthy (Value.int 7) = true) ∧
    ((("artists", [("name", Value.str "abc"), ("sort_by", Value.str "len(name)!asc")]) ∈
        (combinedGet (fun _ => ([] : List Record)) (fun _ => []) (fun _ => [])
          [("substring", Value.str "abc")]).2) ∧
      truthyOpt (dictGet [("name", Value.str "abc"),
        ("sort_by", Value.str "len(name)!asc")] "name") = true ∧
      dictGet [("name", Value.str "abc"), ("sort_by", Value.str "len(name)!asc")]
        "sort_by" = some (Value.str "len(name)!asc")) := by
  refine ⟨⟨⟨by decide, by decide⟩, ?_⟩, ⟨⟨by decide, by decide, by decide⟩, ?_⟩,
    ⟨by decide, ?_⟩⟩
  · exact filters_nonempty_except_combined_extras.1 (fun _ => [])
      [("a", Value.str "x")] []
      (remove_empty_parameters (consolidate_parameters [("a", Value.str "x")] []))
      (by decide) ("a", Value.str "x") (by decide)
  · exact filters_nonempty_except_combined_extras.2.1 (fun _ => [])
      "artist_id" "7" (by decide) [("id", Value.int 7)] (by decide)
      ("id", Value.int 7) (by decide)
  · exact filters_nonempty_except_combined_extras.2.2 (fun _ => [])
      (fun _ => []) (fun _ => []) [("substring", Value.str "abc")]
      ("artists", [("name", Value.str "abc"), ("sort_by", Value.str "len(name)!asc")])
      (by decide)

end Rearguarde
